import Mathlib

/-!
Verification development for the sysinfo-gtk application
(`src/sysinfo_gtk/main.py`), a GTK4 system-information tool.

The Python source is shallowly embedded:

* the ambient system (command outputs, file contents, environment
  variables, directory listings, uname/platform values, the runtime's
  set-iteration order) is a `PyEnv` record, so every collector becomes a
  pure function of a `PyEnv`;
* Python dictionaries are ordered association lists (`ODict`) with the
  CPython insert-in-place/append semantics;
* code that can raise runs in `Except String` with the CPython error
  messages; code that cannot raise is written as plain functions;
* Python `int` is `Int` (floor division `Int.fdiv`, as in Python);
  Python floats are modelled as exact rationals (`Rat`), which is exact
  for every quantity the program manipulates except for rounding at the
  last displayed digit;
* gettext translation (`_`) is modelled as the identity, i.e. the
  untranslated string.

String helpers mirror the CPython semantics of `str.strip`, `str.split`,
`str.splitlines`, `str.replace`, `in`, slicing and `sorted`.  They are
written by structural recursion over character lists so that every
definition evaluates inside the kernel.
-/

/-- Whitespace for CPython `str.split()`/`str.strip()` (ASCII subset). -/
def chIsWs (c : Char) : Bool :=
  c = ' ' || c = '\t' || c = '\n' || c = '\r' || c = '\x0b' || c = '\x0c'

/-- ASCII digit test. -/
def chIsDigit (c : Char) : Bool := 48 ≤ c.toNat && c.toNat ≤ 57

/-- CPython `str.strip()` with no argument. -/
def pyStrip (s : String) : String :=
  String.mk (((s.data.dropWhile chIsWs).reverse.dropWhile chIsWs).reverse)

/-- CPython `str.strip(q)` for a single strip character `q`. -/
def pyStripChar (q : Char) (s : String) : String :=
  String.mk (((s.data.dropWhile (fun c => c = q)).reverse.dropWhile (fun c => c = q)).reverse)

/-- List-level prefix test used by the string helpers. -/
def isPrefixList : List Char → List Char → Bool
  | [], _ => true
  | _ :: _, [] => false
  | p :: ps, c :: cs => p = c && isPrefixList ps cs

/-- CPython `str.startswith(pre)`. -/
def pyStartsWith (pre s : String) : Bool := isPrefixList pre.data s.data

/-- CPython slicing `s[:n]` (character based, as in Python). -/
def pyTake (s : String) (n : Nat) : String := String.mk (s.data.take n)

/-- CPython slicing `s[n:]`. -/
def pyDrop (s : String) (n : Nat) : String := String.mk (s.data.drop n)

/-- Worker for `pySplitOn`; the fuel starts at the length of the character
list and each step consumes at least one character, so the fuel never
runs out on the initial call. -/
def splitOnGo (sep : List Char) : Nat → List Char → List Char → List (List Char)
  | _, [], cur => [cur.reverse]
  | 0, cs, cur => [cur.reverse ++ cs]
  | fuel+1, c :: cs, cur =>
    if isPrefixList sep (c :: cs) then
      cur.reverse :: splitOnGo sep fuel ((c :: cs).drop sep.length) []
    else
      splitOnGo sep fuel cs (c :: cur)

/-- CPython `s.split(sep)` for a non-empty separator string. -/
def pySplitOn (sep : String) (s : String) : List String :=
  if sep.data.isEmpty then [s]
  else (splitOnGo sep.data s.data.length s.data []).map String.mk

/-- CPython `s.split(sep, maxsplit)`. -/
def pySplitOnMax (sep : String) (maxsplit : Nat) (s : String) : List String :=
  let ps := pySplitOn sep s
  if ps.length ≤ maxsplit + 1 then ps
  else ps.take maxsplit ++ [String.intercalate sep (ps.drop maxsplit)]

/-- CPython `s.splitlines()` (newline-only model; the program only feeds it
text produced by `_cmd`/`_read_file`). -/
def pySplitlines (s : String) : List String :=
  let ps := pySplitOn "\n" s
  if ps.getLast? = some "" then ps.dropLast else ps

/-- Worker for `pySplitWs`; fuel as in `splitOnGo`. -/
def splitWsGo : Nat → List Char → List (List Char)
  | _, [] => []
  | 0, cs => [cs]
  | fuel+1, c :: cs =>
    if chIsWs c then splitWsGo fuel cs
    else ((c :: cs).takeWhile (fun d => !chIsWs d)) ::
      splitWsGo fuel ((c :: cs).dropWhile (fun d => !chIsWs d))

/-- CPython whitespace split `s.split()` (no argument). -/
def pySplitWs (s : String) : List String :=
  (splitWsGo s.data.length s.data).map String.mk

/-- Worker for `pySplitWsMax`. -/
def splitWsMaxGo : Nat → Nat → List Char → List (List Char)
  | _, _, [] => []
  | 0, _, cs => [cs]
  | fuel+1, n, c :: cs =>
    if chIsWs c then splitWsMaxGo fuel n cs
    else if n = 0 then [c :: cs]
    else ((c :: cs).takeWhile (fun d => !chIsWs d)) ::
      splitWsMaxGo fuel (n-1) ((c :: cs).dropWhile (fun d => !chIsWs d))

/-- CPython `s.split(None, maxsplit)`. -/
def pySplitWsMax (maxsplit : Nat) (s : String) : List String :=
  (splitWsMaxGo s.data.length maxsplit s.data).map String.mk

/-- Worker for `pyReplace`. -/
def replaceGo (old new : List Char) : Nat → List Char → List Char
  | _, [] => []
  | 0, cs => cs
  | fuel+1, c :: cs =>
    if isPrefixList old (c :: cs) then
      new ++ replaceGo old new fuel ((c :: cs).drop old.length)
    else c :: replaceGo old new fuel cs

/-- CPython `s.replace(old, new)` for non-empty `old`. -/
def pyReplace (s old new : String) : String :=
  if old.data.isEmpty then s
  else String.mk (replaceGo old.data new.data s.data.length s.data)

/-- CPython substring test `sub in s`. -/
def pyContains (sub s : String) : Bool :=
  if sub.data.isEmpty then true else (pySplitOn sub s).length != 1

/-- Code-point comparison of character lists, as CPython compares `str`. -/
def strLtL : List Char → List Char → Bool
  | [], [] => false
  | [], _ :: _ => true
  | _ :: _, [] => false
  | a :: as, b :: bs => if a = b then strLtL as bs else a.toNat < b.toNat

/-- CPython `<` on strings. -/
def pyStrLt (a b : String) : Bool := strLtL a.data b.data

/-- Sorted insertion used by `pySorted`. -/
def sortInsert (x : String) : List String → List String
  | [] => [x]
  | y :: ys => if pyStrLt x y then x :: y :: ys else y :: sortInsert x ys

/-- CPython `sorted(...)` on strings (code-point order, duplicates kept). -/
def pySorted (l : List String) : List String := l.foldr sortInsert []

/-- Adding an element to a Python `set`, modelled as first-insertion-order
list of its distinct elements. -/
def setAdd (l : List String) (x : String) : List String :=
  if l.any (fun y => y = x) then l else l ++ [x]

/-- Distinct elements of a list in first-occurrence order (Python `set`
contents). -/
def pyDedup (l : List String) : List String := l.foldl setAdd []

/-- Base-10 digits to a number; `none` when empty or a non-digit occurs. -/
def digitsVal (cs : List Char) : Option Nat :=
  if cs.isEmpty then none
  else cs.foldl (fun acc c =>
    match acc with
    | none => none
    | some n => if chIsDigit c then some (n * 10 + (c.toNat - 48)) else none) (some 0)

/-- CPython `int(s)` for base-10 strings; `none` models `ValueError`. -/
def pyInt (s : String) : Option Int :=
  match (pyStrip s).data with
  | '-' :: rest => (digitsVal rest).map (fun n => -(n : Int))
  | '+' :: rest => (digitsVal rest).map (fun n => (n : Int))
  | cs => (digitsVal cs).map (fun n => (n : Int))

/-- Mantissa part of a float literal: digits, optionally with one dot. -/
def pyFloatMant (cs : List Char) : Option Rat :=
  let intPart := cs.takeWhile chIsDigit
  let rest := cs.dropWhile chIsDigit
  match rest with
  | [] =>
    if intPart.isEmpty then none
    else (digitsVal intPart).map (fun n => (n : Rat))
  | '.' :: frac =>
    if frac.all chIsDigit && !(intPart.isEmpty && frac.isEmpty) then
      some (((digitsVal intPart).getD 0 : Rat) +
        ((digitsVal frac).getD 0 : Rat) / ((10 : Rat) ^ frac.length))
    else none
  | _ => none

/-- CPython `float(s)` modelled as an exact rational; `none` models
`ValueError` (`inf`/`nan` literals are out of the program's input space). -/
def pyFloat (s : String) : Option Rat :=
  let cs0 := (pyStrip s).data
  let signed : Bool × List Char :=
    match cs0 with
    | '-' :: r => (true, r)
    | '+' :: r => (false, r)
    | r => (false, r)
  let m := signed.2.takeWhile (fun c => !(c = 'e' || c = 'E'))
  let rest := signed.2.dropWhile (fun c => !(c = 'e' || c = 'E'))
  match rest with
  | [] => (pyFloatMant m).map (fun q => if signed.1 then -q else q)
  | _ :: expPart =>
    let esigned : Bool × List Char :=
      match expPart with
      | '-' :: t => (true, t)
      | '+' :: t => (false, t)
      | t => (false, t)
    match pyFloatMant m, digitsVal esigned.2 with
    | some q, some e =>
      let q2 := q * (if esigned.1 then 1 / ((10 : Rat) ^ e) else ((10 : Rat) ^ e))
      some (if signed.1 then -q2 else q2)
    | _, _ => none

/-- Truncation toward zero, CPython `int(<float>)`. -/
def ratTrunc (q : Rat) : Int := Int.tdiv q.num (q.den : Int)

/-- Round to the nearest integer, ties to even — CPython float formatting. -/
def roundHalfEven (q : Rat) : Int :=
  let f := Rat.floor q
  let r := q - (f : Rat)
  if r < 1/2 then f
  else if 1/2 < r then f + 1
  else if f % 2 = 0 then f else f + 1

/-- CPython `f"{q:.0f}"` (sign of negative zero elided). -/
def fmtF0 (q : Rat) : String := toString (roundHalfEven q)

/-- CPython `f"{q:.1f}"` (sign of negative zero elided). -/
def fmtF1 (q : Rat) : String :=
  let n := roundHalfEven (q * 10)
  (if n < 0 then "-" else "") ++ toString (n.natAbs / 10) ++ "." ++ toString (n.natAbs % 10)

/-- Zero-padding helper for `fmtF3`. -/
def pad3 (m : Nat) : String :=
  (if m < 10 then "00" else if m < 100 then "0" else "") ++ toString m

/-- CPython `f"{q:.3f}"` (sign of negative zero elided). -/
def fmtF3 (q : Rat) : String :=
  let n := roundHalfEven (q * 1000)
  (if n < 0 then "-" else "") ++ toString (n.natAbs / 1000) ++ "." ++ pad3 (n.natAbs % 1000)

/-- CPython `divmod` on integers (floor division, as in Python). -/
def pyDivMod (a b : Int) : Int × Int := (Int.fdiv a b, Int.fmod a b)

/-- Model of `os.path.basename`. -/
def pyBasename (s : String) : String := (pySplitOn "/" s).getLastD s

/-- Python dict assignment `d[k] = v`: replace in place if the key is
present, else append — CPython insertion-order semantics. -/
def pyDictInsert {α : Type} : List (String × α) → String → α → List (String × α)
  | [], k, v => [(k, v)]
  | (k0, v0) :: rest, k, v =>
    if k0 = k then (k, v) :: rest else (k0, v0) :: pyDictInsert rest k v

/-- Python dict lookup `d.get(k)`. -/
def pyAssocGet {α : Type} : List (String × α) → String → Option α
  | [], _ => none
  | (k0, v0) :: rest, k => if k0 = k then some v0 else pyAssocGet rest k

/-- Python dict lookup with default `d.get(k, dflt)`. -/
def pyAssocGetD {α : Type} (es : List (String × α)) (k : String) (dflt : α) : α :=
  (pyAssocGet es k).getD dflt

/-- Keys of `pyDictInsert`: unchanged when the key is present, appended
otherwise (proof-producing helper used inside `ODict.insert`). -/
def pyDictInsertKeys {α : Type} (es : List (String × α)) (k : String) (v : α) :
    (pyDictInsert es k v).map Prod.fst =
      (if k ∈ es.map Prod.fst then es.map Prod.fst else es.map Prod.fst ++ [k]) := by
  induction es with
  | nil => simp [pyDictInsert]
  | cons hd tl ih =>
    obtain ⟨k0, v0⟩ := hd
    by_cases h : k0 = k
    · subst h
      simp [pyDictInsert]
    · simp only [pyDictInsert, if_neg h, List.map_cons, ih, List.mem_cons]
      by_cases hm : k ∈ tl.map Prod.fst
      · simp [hm, Ne.symm h]
      · simp [hm, Ne.symm h]

/-- Nodup keys are preserved by `pyDictInsert` (helper for `ODict.insert`). -/
def pyDictInsertNodup {α : Type} (es : List (String × α)) (k : String) (v : α)
    (h : (es.map Prod.fst).Nodup) : ((pyDictInsert es k v).map Prod.fst).Nodup := by
  rw [pyDictInsertKeys]
  by_cases hm : k ∈ es.map Prod.fst
  · simpa [hm] using h
  · simp only [hm, if_false]
    rw [List.nodup_append]
    refine ⟨h, List.nodup_singleton k, ?_⟩
    intro a ha hb
    rw [List.mem_singleton] at hb
    subst hb
    exact hm ha

/-- Python dict with string keys and values: insertion-ordered entries with
distinct keys. -/
structure ODict where
  entries : List (String × String)
  nodup : (entries.map Prod.fst).Nodup

/-- The empty dict `{}`. -/
def ODict.empty : ODict := ⟨[], List.nodup_nil⟩

/-- Dict assignment `d[k] = v`. -/
def ODict.insert (d : ODict) (k v : String) : ODict :=
  ⟨pyDictInsert d.entries k v, pyDictInsertNodup d.entries k v d.nodup⟩

/-- Dict lookup. -/
def odGet (d : ODict) (k : String) : Option String := pyAssocGet d.entries k

/-- CPython `", ".join(...)`-style concatenation. -/
def pyJoin (sep : String) : List String → String
  | [] => ""
  | [x] => x
  | x :: xs => x ++ sep ++ pyJoin sep xs

/-- The ambient system state a run of the program observes: outcomes of the
wrapped commands (`none` models an exception inside `subprocess.run`),
file contents (`none` models an unreadable/absent file), `os.path` tests,
directory listings (in the unspecified `os.listdir` order), `glob.glob`
matches, `os.environ`, the runtime's iteration order for a `set` of
strings (CPython hash-seed dependent), and the `platform`/`uname` values. -/
@[ext]
structure PyEnv where
  cmdOut : List String → Nat → Option String
  fileContent : String → Option String
  pathExists : String → Bool
  isDir : String → Bool
  listDir : String → List String
  globMatches : String → List String
  envVars : List (String × String)
  setOrder : List String → List String
  node : String
  release : String
  machine : String
  processor : String
  platformDesc : String

/-- The helper `_cmd` (main.py:51): run a command, return the stripped
stdout, or the empty string when `subprocess.run` raised. -/
def _cmd (env : PyEnv) (args : List String) (timeout : Nat) : String :=
  match env.cmdOut args timeout with
  | none => ""
  | some out => pyStrip out

/-- The helper `_read_file` (main.py:60): return the stripped file
contents, or the empty string when opening/reading raised. -/
def _read_file (env : PyEnv) (path : String) : String :=
  match env.fileContent path with
  | none => ""
  | some c => pyStrip c

/-- Model of `os.environ.get(k, dflt)`. -/
def pyEnvGet (env : PyEnv) (k dflt : String) : String :=
  pyAssocGetD env.envVars k dflt

/-- Python list indexing `l[i]`; `Except.error` models `IndexError`. -/
def pyIndexE {α : Type} (l : List α) (i : Nat) : Except String α :=
  match l.get? i with
  | some x => Except.ok x
  | none => Except.error "list index out of range"

/-- Python `int(s)`; `Except.error` models `ValueError`. -/
def pyIntE (s : String) : Except String Int :=
  match pyInt s with
  | some n => Except.ok n
  | none => Except.error ("invalid literal for int() with base 10: \x27" ++ s ++ "\x27")

/-- Python `float(s)`; `Except.error` models `ValueError`. -/
def pyFloatE (s : String) : Except String Rat :=
  match pyFloat s with
  | some q => Except.ok q
  | none => Except.error ("could not convert string to float: \x27" ++ s ++ "\x27")

/-- Python `a // b` on ints; `Except.error` models `ZeroDivisionError`. -/
def pyFloorDivE (a b : Int) : Except String Int :=
  if b = 0 then Except.error "integer division or modulo by zero"
  else Except.ok (Int.fdiv a b)

/-- A collector result: section title, icon name, label-to-value dict. -/
abbrev Collected := String × String × ODict

/-- Body of `collect_summary` (main.py:68-91). -/
def collect_summary_info (env : PyEnv) : Except String ODict := do
  let info := ODict.empty
  let info := info.insert "Hostname" env.node
  let osRel := (pySplitOn "\n" (_read_file env "/etc/os-release")).headD ""
  let osName := pyStripChar '"' (pyReplace osRel "PRETTY_NAME=" "")
  let info := info.insert "OS" (if osName = "" then env.platformDesc else osName)
  let info := info.insert "Kernel" env.release
  let info := info.insert "Architecture" env.machine
  let info := info.insert "Desktop"
    (pyEnvGet env "XDG_CURRENT_DESKTOP" (pyEnvGet env "DESKTOP_SESSION" "Unknown"))
  let uptime_s ← if env.pathExists "/proc/uptime" then
      pyIndexE (pySplitWs (_read_file env "/proc/uptime")) 0
    else pure ""
  let info ← if uptime_s ≠ "" then do
      let secsq ← pyFloatE uptime_s
      let secs := ratTrunc secsq
      let dm1 := pyDivMod secs 86400
      let dm2 := pyDivMod dm1.2 3600
      let mins := Int.fdiv dm2.2 60
      pure (info.insert "Uptime"
        (toString dm1.1 ++ "d " ++ toString dm2.1 ++ "h " ++ toString mins ++ "m"))
    else pure info
  let who := _cmd env ["who"] 5
  let info := if who ≠ "" then
      let users := pyDedup (((pySplitlines who).filter (fun l => pyStrip l ≠ "")).map
        (fun l => (pySplitWs l).headD ""))
      info.insert "Logged in users" (pyJoin ", " (pySorted users))
    else info
  pure info

/-- The collector `collect_summary` (main.py:68-92). -/
def collect_summary (env : PyEnv) : Except String Collected :=
  (collect_summary_info env).map (fun info => ("Summary", "computer-symbolic", info))

/-- First pass over cpuinfo lines: `model name` set and `processor` count
(main.py:100-106). -/
def cpuModelCoresLoop : List String → List String → Nat → Except String (List String × Nat)
  | [], models, cores => pure (models, cores)
  | l :: ls, models, cores => do
    let models ← if pyStartsWith "model name" l then do
        let x ← pyIndexE (pySplitOnMax ":" 1 l) 1
        pure (setAdd models (pyStrip x))
      else pure models
    let cores := if pyStartsWith "processor" l then cores + 1 else cores
    cpuModelCoresLoop ls models cores

/-- Pass collecting the `core id` set (main.py:112-115). -/
def cpuCoreIdsLoop : List String → List String → Except String (List String)
  | [], physical => pure physical
  | l :: ls, physical => do
    let physical ← if pyStartsWith "core id" l then do
        let x ← pyIndexE (pySplitOnMax ":" 1 l) 1
        pure (setAdd physical (pyStrip x))
      else pure physical
    cpuCoreIdsLoop ls physical

/-- Pass finding the first `cpu MHz` line (main.py:120-124). -/
def cpuMhzLoop : List String → Except String (Option String)
  | [] => pure none
  | l :: ls =>
    if pyStartsWith "cpu MHz" l then do
      let x ← pyIndexE (pySplitOnMax ":" 1 l) 1
      let mhz ← pyFloatE (pyStrip x)
      pure (some (fmtF0 mhz ++ " MHz"))
    else cpuMhzLoop ls

/-- Pass finding the first `cache size` line (main.py:127-130). -/
def cpuCacheLoop : List String → Except String (Option String)
  | [] => pure none
  | l :: ls =>
    if pyStartsWith "cache size" l then do
      let x ← pyIndexE (pySplitOnMax ":" 1 l) 1
      pure (some (pyStrip x))
    else cpuCacheLoop ls

/-- The tuple of flags `collect_cpu` singles out (main.py:136-139). -/
def CPU_FEATURES : List String :=
  ["sse4_2", "avx", "avx2", "avx512f", "aes", "ssse3", "ht", "vmx", "svm", "nx", "lm", "pae"]

/-- Pass over the first `flags` line (main.py:133-142). -/
def cpuFlagsLoop : List String → Except String (Option String)
  | [] => pure none
  | l :: ls =>
    if pyStartsWith "flags" l then do
      let x ← pyIndexE (pySplitOnMax ":" 1 l) 1
      let flags := pySplitWs (pyStrip x)
      let interesting := flags.filter (fun f => CPU_FEATURES.any (fun g => g = f))
      pure (if interesting ≠ [] then some (pyJoin ", " (pySorted interesting)) else none)
    else cpuFlagsLoop ls

/-- Body of `collect_cpu` (main.py:95-151). -/
def collect_cpu_info (env : PyEnv) : Except String ODict := do
  let info := ODict.empty
  let info ← if env.pathExists "/proc/cpuinfo" then do
      let cpuinfo := _read_file env "/proc/cpuinfo"
      let lines := pySplitlines cpuinfo
      let mc ← cpuModelCoresLoop lines [] 0
      let info := if mc.1 ≠ [] then info.insert "Model" (pyJoin ", " (env.setOrder mc.1)) else info
      let info := info.insert "Threads" (toString mc.2)
      let physical ← cpuCoreIdsLoop lines []
      let info := if physical ≠ [] then info.insert "Physical cores" (toString physical.length) else info
      let mhz ← cpuMhzLoop lines
      let info := match mhz with
        | some v => info.insert "Current frequency" v
        | none => info
      let cache ← cpuCacheLoop lines
      let info := match cache with
        | some v => info.insert "Cache" v
        | none => info
      let feats ← cpuFlagsLoop lines
      let info := match feats with
        | some v => info.insert "Features" v
        | none => info
      pure info
    else
      pure (info.insert "Model" (if env.processor = "" then "Unknown" else env.processor))
  let info := if env.pathExists "/proc/loadavg" then
      info.insert "Load average" (pyJoin " / " ((pySplitWs (_read_file env "/proc/loadavg")).take 3))
    else info
  pure info

/-- The collector `collect_cpu` (main.py:95-152). -/
def collect_cpu (env : PyEnv) : Except String Collected :=
  (collect_cpu_info env).map (fun info => ("Processor", "processor-symbolic", info))

/-- Parse of /proc/meminfo into the `vals` dict (main.py:160-166). -/
def memValsLoop : List String → List (String × Int) → Except String (List (String × Int))
  | [], vals => pure vals
  | l :: ls, vals => do
    let parts := pySplitOn ":" l
    let vals ← if parts.length = 2 then do
        let key := pyStrip (parts.headD "")
        let valTok ← pyIndexE (pySplitWs (pyStrip (parts.getD 1 ""))) 0
        let n ← pyIntE valTok
        pure (pyDictInsert vals key n)
      else pure vals
    memValsLoop ls vals

/-- Loop over `dmidecode -t memory` lines: first informative `Type:` line
wins and breaks; `Speed:` lines keep overwriting until then
(main.py:186-192). -/
def memDmiLoop : List String → ODict → ODict
  | [], info => info
  | l :: ls, info =>
    let line := pyStrip l
    if pyStartsWith "Type:" line && !pyContains "Unknown" line then
      info.insert "Type" (pyStrip ((pySplitOnMax ":" 1 line).getD 1 ""))
    else
      let info := if pyStartsWith "Speed:" line && !pyContains "Unknown" line then
          info.insert "Speed" (pyStrip ((pySplitOnMax ":" 1 line).getD 1 ""))
        else info
      memDmiLoop ls info

/-- The dict `collect_memory` builds from the parsed meminfo values and the
dmidecode output (main.py:168-192).  Note the `Used` entry is the guarded
conditional expression of main.py:176: the division only happens when
`MemTotal` is non-zero (Python truthiness of `total`). -/
def memBuild (vals : List (String × Int)) (dmi : String) : ODict :=
  let total := pyAssocGetD vals "MemTotal" 0
  let avail := pyAssocGetD vals "MemAvailable" (pyAssocGetD vals "MemFree" 0)
  let used := total - avail
  let swap_total := pyAssocGetD vals "SwapTotal" 0
  let swap_free := pyAssocGetD vals "SwapFree" 0
  let info := ODict.empty
  let info := info.insert "Total"
    (toString (Int.fdiv total 1024) ++ " MB (" ++ toString (Int.fdiv total 1048576) ++ ".0 GB)")
  let info := info.insert "Available" (toString (Int.fdiv avail 1024) ++ " MB")
  let info := info.insert "Used"
    (if total ≠ 0 then
      toString (Int.fdiv used 1024) ++ " MB (" ++ toString (Int.fdiv (used * 100) total) ++ "%)"
    else "?")
  let info := if swap_total ≠ 0 then
      (info.insert "Swap total" (toString (Int.fdiv swap_total 1024) ++ " MB")).insert
        "Swap used" (toString (Int.fdiv (swap_total - swap_free) 1024) ++ " MB")
    else info
  if dmi ≠ "" then memDmiLoop (pySplitlines dmi) info else info

/-- Body of `collect_memory` (main.py:155-192). -/
def collect_memory_info (env : PyEnv) : Except String ODict := do
  let info := ODict.empty
  if env.pathExists "/proc/meminfo" then do
    let meminfo := _read_file env "/proc/meminfo"
    let vals ← memValsLoop (pySplitlines meminfo) []
    let dmi0 := _cmd env ["sudo", "dmidecode", "-t", "memory"] 2
    let dmi := if dmi0 = "" then _cmd env ["dmidecode", "-t", "memory"] 2 else dmi0
    pure (memBuild vals dmi)
  else pure info

/-- The collector `collect_memory` (main.py:155-194). -/
def collect_memory (env : PyEnv) : Except String Collected :=
  (collect_memory_info env).map (fun info => ("Memory", "memory-symbolic", info))

/-- Loop over `df` output lines (main.py:202-206). -/
def storageDfLoop : List String → ODict → ODict
  | [], info => info
  | l :: ls, info =>
    let parts := pySplitWs l
    let info := if parts.length ≥ 7 && !pyStartsWith "tmpfs" (parts.headD "") then
        info.insert (parts.getD 6 "")
          (parts.getD 0 "" ++ " (" ++ parts.getD 1 "" ++ ") — " ++ parts.getD 4 "" ++
            " free / " ++ parts.getD 2 "" ++ " (" ++ parts.getD 5 "" ++ " used)")
      else info
    storageDfLoop ls info

/-- Loop over `lsblk` output lines (main.py:213-221). -/
def storageLsblkLoop : List String → ODict → ODict
  | [], info => info
  | l :: ls, info =>
    let parts := pySplitWsMax 4 l
    let info := if parts.length ≥ 3 && parts.getLastD "" = "disk" then
        let name := parts.getD 0 ""
        let size := parts.getD 1 ""
        let model := if parts.length > 2 then parts.getD 2 "" else ""
        let rota := if parts.length > 3 then parts.getD 3 "" else "1"
        let disk_type := if rota = "1" then "HDD" else "SSD"
        info.insert ("/dev/" ++ name) (size ++ " " ++ model ++ " (" ++ disk_type ++ ")")
      else info
    storageLsblkLoop ls info

/-- Body of `collect_storage` (main.py:197-222); it cannot raise. -/
def collect_storage_info (env : PyEnv) : ODict :=
  let info := ODict.empty
  let df := _cmd env ["df", "-h", "--output=source,fstype,size,used,avail,pcent,target"] 5
  let info := if df ≠ "" then storageDfLoop ((pySplitlines df).drop 1) info else info
  let lsblk := _cmd env ["lsblk", "-d", "-o", "NAME,SIZE,MODEL,ROTA,TYPE", "--noheadings"] 5
  if lsblk ≠ "" then
    let info := (info.insert "" "").insert "Block devices" ""
    storageLsblkLoop (pySplitlines lsblk) info
  else info

/-- The collector `collect_storage` (main.py:197-223). -/
def collect_storage (env : PyEnv) : Except String Collected :=
  Except.ok ("Storage", "drive-harddisk-symbolic", collect_storage_info env)

/-- Loop over `lspci` lines (main.py:231-234). -/
def gpuLspciLoop : List String → ODict → ODict
  | [], info => info
  | l :: ls, info =>
    let info := if pyContains "VGA" l || pyContains "3D" l || pyContains "Display" l then
        let gpu_name := if pyContains ":" l then pyStrip ((pySplitOnMax ":" 2 l).getLastD "") else l
        info.insert "GPU" gpu_name
      else info
    gpuLspciLoop ls info

/-- Loop over `glxinfo` lines, breaking after the version line
(main.py:239-244). -/
def gpuGlxLoop : List String → ODict → Except String ODict
  | [], info => pure info
  | l :: ls, info => do
    let info ← if pyContains "OpenGL renderer" l then do
        let x ← pyIndexE (pySplitOnMax ":" 1 l) 1
        pure (info.insert "OpenGL renderer" (pyStrip x))
      else pure info
    if pyContains "OpenGL version" l then do
      let x ← pyIndexE (pySplitOnMax ":" 1 l) 1
      pure (info.insert "OpenGL version" (pyStrip x))
    else gpuGlxLoop ls info

/-- Loop over `vulkaninfo` lines, breaking after the apiVersion line
(main.py:249-254). -/
def gpuVulkanLoop : List String → ODict → Except String ODict
  | [], info => pure info
  | l :: ls, info => do
    let info ← if pyContains "deviceName" l then do
        let x ← pyIndexE (pySplitOnMax "=" 1 l) 1
        pure (info.insert "Vulkan device" (pyStrip x))
      else pure info
    if pyContains "apiVersion" l && pyContains "=" l then
      pure (info.insert "Vulkan API" (pyStrip ((pySplitOnMax "=" 1 l).getD 1 "")))
    else gpuVulkanLoop ls info

/-- Body of `collect_gpu` (main.py:226-258). -/
def collect_gpu_info (env : PyEnv) : Except String ODict := do
  let info := ODict.empty
  let lspci := _cmd env ["lspci"] 5
  let info := if lspci ≠ "" then gpuLspciLoop (pySplitlines lspci) info else info
  let glx := _cmd env ["glxinfo"] 5
  let info ← if glx ≠ "" then gpuGlxLoop (pySplitlines glx) info else pure info
  let vulkan := _cmd env ["vulkaninfo", "--summary"] 5
  let info ← if vulkan ≠ "" then gpuVulkanLoop (pySplitlines vulkan) info else pure info
  let info := if info.entries.isEmpty then
      info.insert "GPU" "No GPU detected (lspci not available?)"
    else info
  pure info

/-- The collector `collect_gpu` (main.py:226-259). -/
def collect_gpu (env : PyEnv) : Except String Collected :=
  (collect_gpu_info env).map (fun info => ("Graphics", "video-display-symbolic", info))

/-- Loop over `ip -brief addr` lines (main.py:267-275). -/
def netIpLoop : List String → ODict → ODict
  | [], info => info
  | l :: ls, info =>
    let parts := pySplitWs l
    let info := if parts.length ≥ 3 then
        info.insert (parts.getD 0 "") (parts.getD 1 "" ++ " — " ++ pyJoin " " (parts.drop 2))
      else if parts.length = 2 then
        info.insert (parts.getD 0 "") (parts.getD 1 "")
      else info
    netIpLoop ls info

/-- The DNS list comprehension over nameserver lines (main.py:284); the
index `l.split()[1]` raises on a bare `nameserver` line. -/
def netDnsList : List String → Except String (List String)
  | [] => pure []
  | l :: ls => do
    let x ← pyIndexE (pySplitWs l) 1
    let rest ← netDnsList ls
    pure (x :: rest)

/-- Body of `collect_network` (main.py:262-287). -/
def collect_network_info (env : PyEnv) : Except String ODict := do
  let info := ODict.empty
  let ip_out := _cmd env ["ip", "-brief", "addr"] 5
  let info := if ip_out ≠ "" then netIpLoop (pySplitlines ip_out) info
    else
      let ifconfig := _cmd env ["ifconfig"] 5
      if ifconfig ≠ "" then info.insert "Network" (pyTake ifconfig 500) else info
  let resolv := _read_file env "/etc/resolv.conf"
  let dns ← netDnsList ((pySplitlines resolv).filter (fun l => pyStartsWith "nameserver" l))
  let info := if dns ≠ [] then info.insert "DNS servers" (pyJoin ", " dns) else info
  pure info

/-- The collector `collect_network` (main.py:262-288). -/
def collect_network (env : PyEnv) : Except String Collected :=
  (collect_network_info env).map (fun info => ("Network", "network-wired-symbolic", info))

/-- Loop over `sensors` output, threading the current chip name
(main.py:333-344). -/
def sensorsLoop : List String → String → ODict → ODict
  | [], _, info => info
  | l :: ls, chip, info =>
    if !pyStartsWith " " l && pyStrip l ≠ "" && !pyContains ":" l then
      sensorsLoop ls (pyStrip l) info
    else if pyContains ":" l then
      let name := pyStrip ((pySplitOnMax ":" 1 l).headD "")
      let val := pyStrip ((pySplitOnMax ":" 1 l).getD 1 "")
      let info := if chip ≠ "" then info.insert (chip ++ " / " ++ name) val
        else info.insert name val
      sensorsLoop ls chip info
    else sensorsLoop ls chip info

/-- Inner hwmon loop over `temp*_input` files; the `try`/`except: pass`
skips files whose contents do not parse as an int (main.py:349-356). -/
def sensorsTempFiles (env : PyEnv) (chip : String) : List String → ODict → ODict
  | [], info => info
  | tf :: tfs, info =>
    let info := match pyInt (_read_file env tf) with
      | none => info
      | some t =>
        let temp : Rat := (t : Rat) / 1000
        let label0 := _read_file env (pyReplace tf "_input" "_label")
        let label := if label0 = "" then pyBasename tf else label0
        info.insert (chip ++ " / " ++ label) (fmtF1 temp ++ " °C")
    sensorsTempFiles env chip tfs info

/-- Outer hwmon fallback loop (main.py:347-356). -/
def sensorsHwmonDirs (env : PyEnv) : List String → ODict → ODict
  | [], info => info
  | hw :: hws, info =>
    let chip := _read_file env (hw ++ "/name")
    let info := sensorsTempFiles env chip (pySorted (env.globMatches (hw ++ "/temp*_input"))) info
    sensorsHwmonDirs env hws info

/-- Body of `collect_sensors` (main.py:328-359); it cannot raise. -/
def collect_sensors_info (env : PyEnv) : ODict :=
  let info := ODict.empty
  let sensors := _cmd env ["sensors"] 5
  let info := if sensors ≠ "" then sensorsLoop (pySplitlines sensors) "" info
    else sensorsHwmonDirs env (pySorted (env.globMatches "/sys/class/hwmon/hwmon*")) info
  if info.entries.isEmpty then info.insert "Sensors" "No sensor data available" else info

/-- The collector `collect_sensors` (main.py:328-360). -/
def collect_sensors (env : PyEnv) : Except String Collected :=
  Except.ok ("Sensors", "sensors-temperature-symbolic", collect_sensors_info env)

/-- Loop over power-supply directory entries (main.py:368-384).  The
`int(...)` conversions and the `//` for the Health entry can raise. -/
def batteryLoop (env : PyEnv) : List String → ODict → Except String ODict
  | [], info => pure info
  | bat :: bats, info => do
    let base := "/sys/class/power_supply/" ++ bat
    let bat_type := _read_file env (base ++ "/type")
    let info ← if bat_type = "Battery" then do
        let status := _read_file env (base ++ "/status")
        let capacity := _read_file env (base ++ "/capacity")
        let energy_full := _read_file env (base ++ "/energy_full")
        let energy_design := _read_file env (base ++ "/energy_full_design")
        let tech := _read_file env (base ++ "/technology")
        let info := info.insert (bat ++ " — " ++ "Status") (if status = "" then "Unknown" else status)
        let info := if capacity ≠ "" then info.insert (bat ++ " — " ++ "Capacity") (capacity ++ "%")
          else info
        let info := if tech ≠ "" then info.insert (bat ++ " — " ++ "Technology") tech else info
        if energy_full ≠ "" && energy_design ≠ "" then do
          let ef ← pyIntE energy_full
          let ed ← pyIntE energy_design
          let health ← pyFloorDivE (ef * 100) ed
          pure (info.insert (bat ++ " — " ++ "Health") (toString health ++ "%"))
        else pure info
      else pure info
    batteryLoop env bats info

/-- Body of `collect_battery` (main.py:363-387). -/
def collect_battery_info (env : PyEnv) : Except String ODict := do
  let info := ODict.empty
  let info ← if env.isDir "/sys/class/power_supply" then
      batteryLoop env (env.listDir "/sys/class/power_supply") info
    else pure info
  let info := if info.entries.isEmpty then info.insert "Battery" "No battery detected" else info
  pure info

/-- The collector `collect_battery` (main.py:363-388). -/
def collect_battery (env : PyEnv) : Except String Collected :=
  (collect_battery_info env).map (fun info => ("Battery", "battery-symbolic", info))

/-- Loop over `lspci -mm` lines (main.py:296-306). -/
def pciLoop : List String → ODict → ODict
  | [], info => info
  | l :: ls, info =>
    let parts := pySplitOn "\"" l
    let info := if parts.length ≥ 6 then
        info.insert (pyStrip (parts.headD ""))
          (parts.getD 1 "" ++ ": " ++ parts.getD 3 "" ++ " " ++ parts.getD 5 "")
      else info.insert (pyTake l 8) (pyStrip (pyDrop l 8))
    pciLoop ls info

/-- Body of `collect_pci` (main.py:291-308); it cannot raise. -/
def collect_pci_info (env : PyEnv) : ODict :=
  let lspci := _cmd env ["lspci", "-mm"] 5
  if lspci ≠ "" then pciLoop (pySplitlines lspci) ODict.empty
  else ODict.empty.insert "PCI" "lspci not available"

/-- The collector `collect_pci` (main.py:291-309). -/
def collect_pci (env : PyEnv) : Except String Collected :=
  Except.ok ("PCI Devices", "expansion-card-symbolic", collect_pci_info env)

/-- Literal-prefix matcher used by the lsusb regex model. -/
def dropPrefixQ (pat : List Char) (cs : List Char) : Option (List Char) :=
  if isPrefixList pat cs then some (cs.drop pat.length) else none

/-- Model of `re.match(r"Bus (\d+) Device (\d+): ID (\S+) (.*)", line)`
(main.py:318): the greedy character classes cannot cross the following
literal, so the match is deterministic. -/
def lsusbMatch (line : String) : Option (String × String × String × String) :=
  match dropPrefixQ "Bus ".data line.data with
  | none => none
  | some r1 =>
    let g1 := r1.takeWhile chIsDigit
    if g1.isEmpty then none else
    match dropPrefixQ " Device ".data (r1.dropWhile chIsDigit) with
    | none => none
    | some r2 =>
      let g2 := r2.takeWhile chIsDigit
      if g2.isEmpty then none else
      match dropPrefixQ ": ID ".data (r2.dropWhile chIsDigit) with
      | none => none
      | some r3 =>
        let g3 := r3.takeWhile (fun c => !chIsWs c)
        if g3.isEmpty then none else
        match r3.dropWhile (fun c => !chIsWs c) with
        | ' ' :: g4 => some (String.mk g1, String.mk g2, String.mk g3, String.mk g4)
        | _ => none

/-- Loop over `lsusb` lines (main.py:317-322). -/
def usbLoop : List String → ODict → ODict
  | [], info => info
  | l :: ls, info =>
    let info := match lsusbMatch l with
      | some g => info.insert ("Bus " ++ g.1 ++ " Dev " ++ g.2.1) (g.2.2.1 ++ " " ++ g.2.2.2)
      | none => info.insert (pyTake l 20) (pyDrop l 20)
    usbLoop ls info

/-- Body of `collect_usb` (main.py:312-324); it cannot raise. -/
def collect_usb_info (env : PyEnv) : ODict :=
  let lsusb := _cmd env ["lsusb"] 5
  if lsusb ≠ "" then usbLoop (pySplitlines lsusb) ODict.empty
  else ODict.empty.insert "USB" "lsusb not available"

/-- The collector `collect_usb` (main.py:312-325). -/
def collect_usb (env : PyEnv) : Except String Collected :=
  Except.ok ("USB Devices", "drive-removable-media-symbolic", collect_usb_info env)

/-- Loop over `df -hT` lines (main.py:413-416). -/
def fsLoop : List String → ODict → ODict
  | [], info => info
  | l :: ls, info =>
    let parts := pySplitWs l
    let info := if parts.length ≥ 7 && !pyStartsWith "tmpfs" (parts.headD "") &&
        !pyStartsWith "devtmpfs" (parts.headD "") then
        info.insert (parts.getD 6 "")
          (parts.getD 0 "" ++ " (" ++ parts.getD 1 "" ++ ") — " ++ parts.getD 4 "" ++
            " avail / " ++ parts.getD 2 "" ++ " total")
      else info
    fsLoop ls info

/-- Body of `collect_filesystems` (main.py:407-416); it cannot raise. -/
def collect_filesystems_info (env : PyEnv) : ODict :=
  let df := _cmd env ["df", "-hT"] 5
  if df ≠ "" then fsLoop ((pySplitlines df).drop 1) ODict.empty else ODict.empty

/-- The collector `collect_filesystems` (main.py:407-417). -/
def collect_filesystems (env : PyEnv) : Except String Collected :=
  Except.ok ("Filesystems", "drive-multidisk-symbolic", collect_filesystems_info env)

/-- Loop over sorted `lsmod` lines (main.py:397-403). -/
def kmodLoop : List String → ODict → ODict
  | [], info => info
  | l :: ls, info =>
    let parts := pySplitWs l
    let info := if parts ≠ [] then
        info.insert (parts.headD "")
          ("Size: " ++ parts.getD 1 "" ++ "  " ++ "Used by: " ++ parts.getD 2 "")
      else info
    kmodLoop ls info

/-- Body of `collect_kernel_modules` (main.py:391-403); it cannot raise. -/
def collect_kernel_modules_info (env : PyEnv) : ODict :=
  let lsmod := _cmd env ["lsmod"] 5
  if lsmod ≠ "" then kmodLoop (pySorted ((pySplitlines lsmod).drop 1)) ODict.empty
  else ODict.empty

/-- The collector `collect_kernel_modules` (main.py:391-404). -/
def collect_kernel_modules (env : PyEnv) : Except String Collected :=
  Except.ok ("Kernel Modules", "application-x-firmware-symbolic", collect_kernel_modules_info env)

/-- Loop over `xrandr --current` lines (main.py:425-427). -/
def displayLoop : List String → ODict → ODict
  | [], info => info
  | l :: ls, info =>
    let info := if pyContains " connected" l then
        info.insert ((pySplitWs l).headD "")
          (pyStrip ((pySplitOnMax " connected" 1 l).getD 1 ""))
      else info
    displayLoop ls info

/-- Body of `collect_display` (main.py:420-433); it cannot raise. -/
def collect_display_info (env : PyEnv) : ODict :=
  let xrandr := _cmd env ["xrandr", "--current"] 5
  let info := if xrandr ≠ "" then displayLoop (pySplitlines xrandr) ODict.empty else ODict.empty
  let wayland := pyEnvGet env "WAYLAND_DISPLAY" ""
  if wayland ≠ "" then info.insert "Session" ("Wayland (" ++ wayland ++ ")")
  else if pyEnvGet env "DISPLAY" "" ≠ "" then
    info.insert "Session" ("X11 (" ++ pyEnvGet env "DISPLAY" "" ++ ")")
  else info

/-- The collector `collect_display` (main.py:420-434). -/
def collect_display (env : PyEnv) : Except String Collected :=
  Except.ok ("Display", "video-display-symbolic", collect_display_info env)

/-- Loop over the sorted environment keys (main.py:440-443). -/
def envKeysLoop (env : PyEnv) : List String → ODict → ODict
  | [], info => info
  | k :: ks, info =>
    let info := if pyStartsWith "_" k || pyStartsWith "LS_COLORS" k then info
      else info.insert k (pyTake (pyEnvGet env k "") 200)
    envKeysLoop env ks info

/-- Body of `collect_environment` (main.py:437-444); it cannot raise. -/
def collect_environment_info (env : PyEnv) : ODict :=
  envKeysLoop env (pySorted (pyDedup (env.envVars.map Prod.fst))) ODict.empty

/-- The collector `collect_environment` (main.py:437-444). -/
def collect_environment (env : PyEnv) : Except String Collected :=
  Except.ok ("Environment", "preferences-other-symbolic", collect_environment_info env)

/-- The section list `SECTIONS` (main.py:522-537), each collector paired
with a model of its `str(collector)` representation (the memory address
CPython includes is elided). -/
def SECTIONS : List (String × (PyEnv → Except String Collected)) :=
  [("<function collect_summary>", collect_summary),
   ("<function collect_cpu>", collect_cpu),
   ("<function collect_memory>", collect_memory),
   ("<function collect_storage>", collect_storage),
   ("<function collect_gpu>", collect_gpu),
   ("<function collect_display>", collect_display),
   ("<function collect_network>", collect_network),
   ("<function collect_sensors>", collect_sensors),
   ("<function collect_battery>", collect_battery),
   ("<function collect_pci>", collect_pci),
   ("<function collect_usb>", collect_usb),
   ("<function collect_filesystems>", collect_filesystems),
   ("<function collect_kernel_modules>", collect_kernel_modules),
   ("<function collect_environment>", collect_environment)]

/-- The per-collector (title, icon) table of `_populate_categories`
(main.py:676-691), listed in `SECTIONS` order. -/
def SECTION_NAMES : List (String × String) :=
  [("Summary", "computer-symbolic"),
   ("Processor", "processor-symbolic"),
   ("Memory", "memory-symbolic"),
   ("Storage", "drive-harddisk-symbolic"),
   ("Graphics", "video-display-symbolic"),
   ("Display", "video-display-symbolic"),
   ("Network", "network-wired-symbolic"),
   ("Sensors", "sensors-temperature-symbolic"),
   ("Battery", "battery-symbolic"),
   ("PCI Devices", "expansion-card-symbolic"),
   ("USB Devices", "drive-removable-media-symbolic"),
   ("Filesystems", "drive-multidisk-symbolic"),
   ("Kernel Modules", "application-x-firmware-symbolic"),
   ("Environment", "preferences-other-symbolic")]

/-- The loader `_load_all` (main.py:714-721): run every collector in order; a raising
collector contributes `(str(collector), "", {Error: str(e)})` and the
loop continues.  `_sections_data` is the resulting list, indexed in
`SECTIONS` order. -/
def loadAll (env : PyEnv) : List Collected :=
  SECTIONS.map (fun s =>
    match s.2 env with
    | Except.ok d => d
    | Except.error e => (s.1, "", ODict.empty.insert "Error" e))

/-- Newton iteration for the integer square root, fuel-driven; with fuel at
least the initial guess it coincides with `Nat.sqrt` (proved below). -/
def isqrtIter (n : Nat) (guess : Nat) : Nat → Nat
  | 0 => guess
  | fuel+1 =>
    let next := (guess + n / guess) / 2
    if next < guess then isqrtIter n next fuel else guess

/-- Model of `int(math.sqrt(n))` (main.py:456).  For `n < 2^52` the double
square root is exactly rounded far from any integer boundary, so the
truncation equals the integer square root. -/
def pyISqrt (n : Nat) : Nat := if n ≤ 1 then n else isqrtIter n (n / 2) (n / 2)

/-- The benchmark's inner loop `for i in range(2, int(math.sqrt(n)) + 1)`
with the `n % i == 0` early exit (main.py:456-459), fuel-driven over the
range length. -/
def trialInner (n : Nat) (i : Nat) : Nat → Bool
  | 0 => true
  | fuel+1 => if n % i == 0 then false else trialInner n (i+1) fuel

/-- The flag `is_prime` as computed for one `n` by `run_benchmark_cpu`. -/
def trialIsPrime (n : Nat) : Bool := trialInner n 2 (pyISqrt n + 1 - 2)

/-- The benchmark's outer loop `for n in range(2, 100000)` accumulating
`count` (main.py:453-461). -/
def primeCountLoop : Nat → Nat → Nat → Nat
  | _, acc, 0 => acc
  | n, acc, r+1 => primeCountLoop (n+1) (if trialIsPrime n then acc + 1 else acc) r

/-- The `count` value `run_benchmark_cpu` reports. -/
def benchPrimeCount : Nat := primeCountLoop 2 0 99998

/-- The benchmark `run_benchmark_cpu` (main.py:449-468) as a function of the elapsed
wall-clock time; a zero elapsed time models `ZeroDivisionError` in the
Score entry. -/
def run_benchmark_cpu (elapsed : Rat) : Except String ODict :=
  if elapsed = 0 then Except.error "float division by zero"
  else Except.ok ((((ODict.empty.insert "Test" "Prime numbers up to 100,000").insert
    "Primes found" (toString benchPrimeCount)).insert
    "Time" (fmtF3 elapsed ++ " s")).insert
    "Score" (toString (ratTrunc (10000 / elapsed))))

/-- Product of all primes up to 316 (the 316-primorial), as a literal so
the kernel never recomputes it. -/
def PRIM : Nat := 61076929465933196099278943388997855150356143888238371488665496574810764573680243467182799164806563626522181311132959748531230210

/-- The primes up to 316 as the benchmark's own trial division finds them. -/
def primesList : List Nat := (List.range' 2 315).filter (fun n => trialIsPrime n)

/-- Same divisor test as `trialInner` but bounded by `i*i ≤ n`, written
with `cond` over primitive comparisons so the kernel evaluates it fast. -/
def fastInner (n : Nat) (i : Nat) : Nat → Bool
  | 0 => true
  | fuel+1 => cond (Nat.ble (i*i) n) (cond (n % i == 0) false (fastInner n (i+1) fuel)) true

/-- Trial division driven by the `i*i ≤ n` bound. -/
def fastIsPrime (n : Nat) : Bool := fastInner n 2 n

/-- Kernel-efficient primality for the benchmark range: below 317 use
trial division, above it `n` is prime iff it is coprime to the
316-primorial (one hardware gcd). -/
def evalIsPrime (n : Nat) : Bool :=
  cond (Nat.ble n 316) (fastIsPrime n) (Nat.gcd n PRIM == 1)

/-- Linear prime count over a range via `evalIsPrime`. -/
def evalLinear : Nat → Nat → Nat
  | _, 0 => 0
  | n, len+1 => (cond (evalIsPrime n) 1 0) + evalLinear (n+1) len

/-- Divide-and-conquer prime count (keeps kernel recursion shallow). -/
def evalSplit : Nat → Nat → Nat → Nat
  | 0, a, len => evalLinear a len
  | f+1, a, len => cond (Nat.ble len 512) (evalLinear a len)
      (evalSplit f a (len/2) + evalSplit f (a + len/2) (len - len/2))

/-- JSON values, for the settings file contents. -/
inductive JVal where
  | null : JVal
  | bool : Bool → JVal
  | num : Int → JVal
  | str : String → JVal
  | arr : List JVal → JVal
  | obj : List (String × JVal) → JVal

/-- The loader `_load_settings` (main.py:36-40): the parsed file when it exists, else
the default `{"welcome_shown": False}`. -/
def _load_settings : Option JVal → JVal
  | some j => j
  | none => JVal.obj [("welcome_shown", JVal.bool false)]

/-- One execution of `_on_welcome_close` (main.py:667-670) against the
settings file: load the settings as the window `__init__` did
(main.py:545), set `welcome_shown` to `True`, persist with
`_save_settings` (main.py:43-46).  The transition requires the loaded
value to be a JSON object; on any other value the item assignment raises
`TypeError` before anything is written. -/
inductive SettingsWrite : Option JVal → Option JVal → Prop
  | mk (p : Option JVal) (es : List (String × JVal)) :
      _load_settings p = JVal.obj es →
      SettingsWrite p (some (JVal.obj (pyDictInsert es "welcome_shown" (JVal.bool true))))

/-- Settings-file states reachable through repeated program runs, each
possibly performing the welcome-close write (the only write path). -/
inductive SettingsReach (start : Option JVal) : Option JVal → Prop
  | refl : SettingsReach start start
  | step (q r : Option JVal) : SettingsReach start q → SettingsWrite q r → SettingsReach start r

/-- The `  key: value` lines of one exported section (main.py:811-812). -/
def exportEntryLines : List (String × String) → String
  | [] => ""
  | (k, v) :: rest => "  " ++ k ++ ": " ++ v ++ "\n" ++ exportEntryLines rest

/-- The text `_on_export_done` writes (main.py:805-812): for every
collector in `SECTIONS` order whose data is present, `"\n=== name ===\n"`
followed by one line per entry, in entry order. -/
def exportText : List (Option Collected) → String
  | [] => ""
  | none :: rest => exportText rest
  | some (name, _, info) :: rest =>
    "\n=== " ++ name ++ " ===\n" ++ exportEntryLines info.entries ++ exportText rest

/-- The report shape in the specification's words: for each loaded section
a header line `=== name ===` then one line per entry, and nothing else. -/
def specReportText (ds : List (Option Collected)) : String :=
  (ds.filterMap (fun d => d.map (fun c =>
    "=== " ++ c.1 ++ " ===\n" ++ exportEntryLines c.2.2.entries))).foldr (fun a b => a ++ b) ""

/-- The amended report shape: a blank separator line precedes each header. -/
def specReportTextAmended (ds : List (Option Collected)) : String :=
  (ds.filterMap (fun d => d.map (fun c =>
    "\n=== " ++ c.1 ++ " ===\n" ++ exportEntryLines c.2.2.entries))).foldr (fun a b => a ++ b) ""

/-- The state the UI handlers manipulate: the settings file on disk, the
in-memory `self.settings`, and `_sections_data` (indexed in `SECTIONS`
order, `none` before a collector has produced data). -/
structure AppState where
  persisted : Option JVal
  settings : JVal
  sectionsData : List (Option Collected)

/-- The UI events that reach a state-relevant handler. -/
inductive UiEvent where
  | welcomeClose
  | refresh
  | exportDone
  | copySection
  | copyRow
  | runBench
  deriving DecidableEq

/-- Python `settings["welcome_shown"] = True` (main.py:668); `none` models
the `TypeError` raised when the parsed settings are not an object. -/
def jSetWelcome : JVal → Option JVal
  | JVal.obj es => some (JVal.obj (pyDictInsert es "welcome_shown" (JVal.bool true)))
  | _ => none

/-- One UI event step, from the handlers of main.py: `_on_welcome_close`
(667-670) stores and persists the settings (on `TypeError` the app dies
with nothing written); `_on_refresh` (790-793) clears `_sections_data`
and re-runs `_load_all` (714-721), modelled together with the reload it
starts; `_on_export_done` (801-815) writes the report text to a
user-chosen file (see `exportText`) and leaves the state alone, as do
the copy handlers (770-788) and the benchmarks (864-873), which only
touch widgets and the clipboard. -/
def uiStep : UiEvent → PyEnv → AppState → AppState
  | UiEvent.welcomeClose, _, s =>
    match jSetWelcome s.settings with
    | some s2 => { s with settings := s2, persisted := some s2 }
    | none => s
  | UiEvent.refresh, env, s => { s with sectionsData := (loadAll env).map some }
  | UiEvent.exportDone, _, s => s
  | UiEvent.copySection, _, s => s
  | UiEvent.copyRow, _, s => s
  | UiEvent.runBench, _, s => s

/-- A fully failing environment: every command raises, every file is
unreadable, nothing exists, the environment is empty. -/
def env0 : PyEnv :=
  { cmdOut := fun _ _ => none
    fileContent := fun _ => none
    pathExists := fun _ => false
    isDir := fun _ => false
    listDir := fun _ => []
    globMatches := fun _ => []
    envVars := []
    setOrder := fun l => l
    node := ""
    release := ""
    machine := ""
    processor := ""
    platformDesc := "" }

/-- Like `env0` but `/etc/resolv.conf` holds the single word
`nameserver` (a nameserver line with no address). -/
def env1 : PyEnv :=
  { env0 with fileContent := fun p => if p = "/etc/resolv.conf" then some "nameserver" else none }

/-- Like `env0` but with hostname `hostA`. -/
def envA : PyEnv := { env0 with node := "hostA" }

/-- Like `env0` but with hostname `hostB`: identical wrapped-utility
outputs, pseudo-files and environment variables, different uname. -/
def envB : PyEnv := { env0 with node := "hostB" }

/-- Environment whose commands all succeed with padded output and whose
files are all unreadable (for the C1 witness). -/
def envWit : PyEnv := { env0 with cmdOut := fun _ _ => some " hi " }

/-- A copy of `env0` written out field by field (for the C9 witness). -/
def envC : PyEnv :=
  { cmdOut := fun _ _ => none
    fileContent := fun _ => none
    pathExists := fun _ => false
    isDir := fun _ => false
    listDir := fun _ => []
    globMatches := fun _ => []
    envVars := []
    setOrder := fun l => l
    node := ""
    release := ""
    machine := ""
    processor := ""
    platformDesc := "" }

/-- The dict values `collect_memory` parses for the C7 witness:
2 MB total, 1 MB free, no MemAvailable. -/
def vals0 : List (String × Int) := [("MemTotal", 2048), ("MemFree", 1024)]

/-- The value `collect_summary` returns on the all-failing environment
(for the C3 witness). -/
def c3ok : Collected := ("Summary", "computer-symbolic",
  ⟨[("Hostname", ""), ("OS", ""), ("Kernel", ""), ("Architecture", ""), ("Desktop", "Unknown")],
    by decide⟩)

/-- Projection used to compare collector runs: the value at a key of a
successful result. -/
def okGet (r : Except String Collected) (k : String) : Option String :=
  match r with
  | Except.ok c => odGet c.2.2 k
  | Except.error _ => none

/-- C1: `_cmd` and `_read_file` never raise: on any failure of the
underlying call they return the empty string, and on success the
output/file contents stripped of surrounding whitespace. -/
theorem cmd_read_file_total (env : PyEnv) (args : List String) (timeout : Nat) (path : String) :
    ((env.cmdOut args timeout = none → _cmd env args timeout = "") ∧
      (∀ out, env.cmdOut args timeout = some out → _cmd env args timeout = pyStrip out)) ∧
    ((env.fileContent path = none → _read_file env path = "") ∧
      (∀ c, env.fileContent path = some c → _read_file env path = pyStrip c)) := by
  refine ⟨⟨fun h => ?_, fun out h => ?_⟩, fun h => ?_, fun c h => ?_⟩
  · simp [_cmd, h]
  · simp [_cmd, h]
  · simp [_read_file, h]
  · simp [_read_file, h]

/-- Witness for C1: a concrete environment where the command succeeds with
padded output and the file read fails. -/
theorem cmd_read_file_total_witness :
    envWit.cmdOut ["who"] 5 = some " hi " ∧ _cmd envWit ["who"] 5 = pyStrip " hi " ∧
    envWit.fileContent "/etc/issue" = none ∧ _read_file envWit "/etc/issue" = "" :=
  ⟨rfl, (cmd_read_file_total envWit ["who"] 5 "/etc/issue").1.2 " hi " rfl, rfl,
    (cmd_read_file_total envWit ["who"] 5 "/etc/issue").2.1 rfl⟩

/-- C2: a missing settings file loads as `{"welcome_shown": False}`, and
from a missing or program-written settings file, every persisted state
reachable through the program's only write path (`_on_welcome_close`)
is a one-key mapping from `welcome_shown` to a boolean. -/
theorem settings_one_boolean_key :
    _load_settings none = JVal.obj [("welcome_shown", JVal.bool false)] ∧
    ∀ start s,
      (start = none ∨ ∃ b, start = some (JVal.obj [("welcome_shown", JVal.bool b)])) →
      SettingsReach start s → ∀ j, s = some j →
      ∃ b, j = JVal.obj [("welcome_shown", JVal.bool b)] := by
  refine ⟨rfl, ?_⟩
  intro start s hstart hreach
  induction hreach with
  | refl =>
    intro j hj
    rcases hstart with h | ⟨b, h⟩
    · rw [h] at hj; cases hj
    · rw [h] at hj
      cases hj
      exact ⟨b, rfl⟩
  | step q r hpq hwrite ih =>
    intro j hj
    cases hwrite with
    | mk es hload =>
      cases hj
      cases hq : q with
      | none =>
        rw [hq] at hload
        cases hload
        exact ⟨true, rfl⟩
      | some j2 =>
        rw [hq] at hload
        obtain ⟨b, hb⟩ := ih j2 hq
        rw [hb] at hload
        cases hload
        exact ⟨true, rfl⟩

/-- Witness for C2: from a missing file, one welcome-close write reaches
`{"welcome_shown": True}`, which the theorem certifies is a one-key
boolean mapping. -/
theorem settings_one_boolean_key_witness :
    SettingsReach none (some (JVal.obj [("welcome_shown", JVal.bool true)])) ∧
    ∃ b, JVal.obj [("welcome_shown", JVal.bool true)] =
      JVal.obj [("welcome_shown", JVal.bool b)] := by
  have hw : SettingsWrite none
      (some (JVal.obj (pyDictInsert [("welcome_shown", JVal.bool false)]
        "welcome_shown" (JVal.bool true)))) :=
    SettingsWrite.mk none [("welcome_shown", JVal.bool false)] rfl
  have hr : SettingsReach none (some (JVal.obj [("welcome_shown", JVal.bool true)])) :=
    SettingsReach.step _ _ SettingsReach.refl hw
  exact ⟨hr, settings_one_boolean_key.2 none _ (Or.inl rfl) hr _ rfl⟩

/-- C8: collectors take only the observed system as input (their type has
no access to the application state), the persisted settings are changed
by no UI event other than the welcome-close handler, and a refresh only
replaces the in-memory `_sections_data` with a fresh `_load_all` pass,
leaving both persisted and in-memory settings unchanged. -/
theorem handlers_frame_persisted (ev : UiEvent) (env : PyEnv) (s : AppState) :
    (ev ≠ UiEvent.welcomeClose → (uiStep ev env s).persisted = s.persisted) ∧
    ((uiStep UiEvent.refresh env s).sectionsData = (loadAll env).map some ∧
      (uiStep UiEvent.refresh env s).persisted = s.persisted ∧
      (uiStep UiEvent.refresh env s).settings = s.settings) := by
  constructor
  · intro hne
    cases ev
    · exact absurd rfl hne
    · rfl
    · rfl
    · rfl
    · rfl
    · rfl
  · exact ⟨rfl, rfl, rfl⟩

/-- Witness for C8: a refresh on a concrete state leaves the persisted
settings file untouched. -/
theorem handlers_frame_persisted_witness :
    UiEvent.refresh ≠ UiEvent.welcomeClose ∧
    (uiStep UiEvent.refresh env0
      { persisted := none, settings := JVal.obj [], sectionsData := [] }).persisted = none :=
  ⟨by decide,
    (handlers_frame_persisted UiEvent.refresh env0
      { persisted := none, settings := JVal.obj [], sectionsData := [] }).1 (by decide)⟩

/-- Lookup after a dict assignment: the inserted key reads the new value,
every other key is unaffected. -/
theorem pyAssocGet_pyDictInsert {α : Type} (es : List (String × α)) (k : String) (v : α)
    (k2 : String) :
    pyAssocGet (pyDictInsert es k v) k2 = if k = k2 then some v else pyAssocGet es k2 := by
  induction es with
  | nil =>
    by_cases h : k = k2 <;> simp [pyDictInsert, pyAssocGet, h]
  | cons hd tl ih =>
    obtain ⟨k0, v0⟩ := hd
    by_cases h0 : k0 = k
    · subst h0
      simp only [pyDictInsert, if_pos rfl]
      by_cases h2 : k0 = k2
      · subst h2
        simp [pyAssocGet]
      · simp [pyAssocGet, h2]
    · simp only [pyDictInsert, if_neg h0]
      by_cases h2 : k0 = k2
      · subst h2
        have hk : ¬ k = k0 := fun hc => h0 hc.symm
        simp [pyAssocGet, hk]
      · simp [pyAssocGet, h2, ih]

/-- Lookup `odGet` after `ODict.insert`. -/
theorem odGet_insert (d : ODict) (k v k2 : String) :
    odGet (d.insert k v) k2 = if k = k2 then some v else odGet d k2 :=
  pyAssocGet_pyDictInsert d.entries k v k2

/-- The dmidecode loop only writes the `Type` and `Speed` keys. -/
theorem memDmiLoop_get (ls : List String) (info : ODict) (k : String)
    (h1 : k ≠ "Type") (h2 : k ≠ "Speed") :
    odGet (memDmiLoop ls info) k = odGet info k := by
  induction ls generalizing info with
  | nil => rfl
  | cons l ls ih =>
    simp only [memDmiLoop]
    split
    · rw [odGet_insert, if_neg (fun hc => h1 hc.symm)]
    · split
      · rw [ih, odGet_insert, if_neg (fun hc => h2 hc.symm)]
      · rw [ih]

/-- C7: the Used entry of `collect_memory` is division-guarded: with
`MemTotal` absent or zero it is the string `?` (no division is
evaluated); with `MemTotal = t > 0` it is
`(t - avail) // 1024 MB ((t - avail) * 100 // t %)` where `avail` is
`MemAvailable` if present, else `MemFree`, else 0 — for every parsed
meminfo dict and every dmidecode output. -/
theorem memory_used_guarded (vals : List (String × Int)) (dmi : String) :
    ((pyAssocGet vals "MemTotal" = none ∨ pyAssocGet vals "MemTotal" = some 0) →
      odGet (memBuild vals dmi) "Used" = some "?") ∧
    (∀ t : Int, pyAssocGet vals "MemTotal" = some t → 0 < t →
      odGet (memBuild vals dmi) "Used" =
        some (toString (Int.fdiv (t - pyAssocGetD vals "MemAvailable"
            (pyAssocGetD vals "MemFree" 0)) 1024) ++ " MB (" ++
          toString (Int.fdiv ((t - pyAssocGetD vals "MemAvailable"
            (pyAssocGetD vals "MemFree" 0)) * 100) t) ++ "%)")) := by
  have hused : ∀ dmi2,
      odGet (memBuild vals dmi2) "Used" =
        some (if pyAssocGetD vals "MemTotal" 0 ≠ 0 then
          toString (Int.fdiv (pyAssocGetD vals "MemTotal" 0 - pyAssocGetD vals "MemAvailable"
            (pyAssocGetD vals "MemFree" 0)) 1024) ++ " MB (" ++
          toString (Int.fdiv ((pyAssocGetD vals "MemTotal" 0 - pyAssocGetD vals "MemAvailable"
            (pyAssocGetD vals "MemFree" 0)) * 100) (pyAssocGetD vals "MemTotal" 0)) ++ "%)"
        else "?") := by
    intro dmi2
    unfold memBuild
    dsimp only
    have hpeel : ∀ info : ODict,
        odGet (if pyAssocGetD vals "SwapTotal" 0 ≠ 0 then
          (info.insert "Swap total"
            (toString ((pyAssocGetD vals "SwapTotal" 0).fdiv 1024) ++ " MB")).insert "Swap used"
            (toString ((pyAssocGetD vals "SwapTotal" 0 - pyAssocGetD vals "SwapFree" 0).fdiv 1024)
              ++ " MB")
        else info) "Used" = odGet info "Used" := by
      intro info
      by_cases hsw : pyAssocGetD vals "SwapTotal" 0 ≠ 0
      · rw [if_pos hsw, odGet_insert, if_neg (by decide), odGet_insert, if_neg (by decide)]
      · rw [if_neg hsw]
    by_cases hdmi : dmi2 ≠ ""
    · rw [if_pos hdmi, memDmiLoop_get _ _ _ (by decide) (by decide), hpeel,
        odGet_insert, if_pos rfl]
    · rw [if_neg hdmi, hpeel, odGet_insert, if_pos rfl]
  constructor
  · intro h0
    rw [hused dmi]
    have : pyAssocGetD vals "MemTotal" 0 = 0 := by
      rcases h0 with h | h <;> simp [pyAssocGetD, h]
    rw [this]
    simp
  · intro t ht hpos
    rw [hused dmi]
    have htd : pyAssocGetD vals "MemTotal" 0 = t := by simp [pyAssocGetD, ht]
    rw [htd, if_pos (by omega)]

/-- Witness for C7: 2 MB total with 1 MB free reports `1 MB (50%)`. -/
theorem memory_used_guarded_witness :
    pyAssocGet vals0 "MemTotal" = some 2048 ∧ (0 : Int) < 2048 ∧
    odGet (memBuild vals0 "") "Used" = some "1 MB (50%)" := by
  refine ⟨rfl, by decide, ?_⟩
  have h := (memory_used_guarded vals0 "").2 2048 rfl (by decide)
  rw [h]
  rfl

/-- C4 counterexample: already with a single loaded section holding a
single entry, the exported text starts with a blank line, so the report
is not only the header line followed by the entry lines. -/
theorem export_shape_cex :
    exportText [some ("S", "i", ODict.empty.insert "k" "v")] ≠
      specReportText [some ("S", "i", ODict.empty.insert "k" "v")] := by
  decide

/-- C4 (amended): the exported report consists, for every collector in
`SECTIONS` order whose data is loaded, of one blank line, the
`=== name ===` header line, then one `  key: value` line per entry of
that section's dict in dict order, and nothing else. -/
theorem export_blank_then_header (ds : List (Option Collected)) :
    exportText ds = specReportTextAmended ds := by
  induction ds with
  | nil => rfl
  | cons d rest ih =>
    cases d with
    | none =>
      show exportText rest = specReportTextAmended (none :: rest)
      rw [ih]
      rfl
    | some c =>
      obtain ⟨name, icon, info⟩ := c
      show "\n=== " ++ name ++ " ===\n" ++ exportEntryLines info.entries ++ exportText rest = _
      rw [ih]
      show _ = ("\n=== " ++ name ++ " ===\n" ++ exportEntryLines info.entries) ++
        specReportTextAmended rest
      simp [String.append_assoc]

/-- Inversion for `Except.map` returning `ok`. -/
theorem exceptMap_eq_ok {α β : Type} (f : α → β) (b : Except String α) (r : β)
    (h : Except.map f b = Except.ok r) : ∃ a, b = Except.ok a ∧ r = f a := by
  cases b with
  | error e => simp [Except.map] at h
  | ok a =>
    refine ⟨a, rfl, ?_⟩
    simp [Except.map] at h
    exact h.symm

/-- A collector of the form `body.map (fun info => (t, ic, info))` only
returns results carrying exactly the title `t` and icon `ic`. -/
theorem map_ok_shape {α : Type} (t ic : String) (b : Except String α) (r : String × String × α)
    (h : Except.map (fun a => (t, ic, a)) b = Except.ok r) : r.1 = t ∧ r.2.1 = ic := by
  obtain ⟨a, hb, hr⟩ := exceptMap_eq_ok _ _ _ h
  rw [hr]
  exact ⟨rfl, rfl⟩

/-- Same for a collector that cannot raise. -/
theorem ok_shape {α : Type} (t ic : String) (a : α) (r : String × String × α)
    (h : (Except.ok (t, ic, a) : Except String (String × String × α)) = Except.ok r) :
    r.1 = t ∧ r.2.1 = ic := by
  injection h with h2
  rw [← h2]
  exact ⟨rfl, rfl⟩

/-- C3 (amended): whenever a collector in `SECTIONS` returns without
raising, the result is a triple of exactly the section title and icon
name fixed for it in `_populate_categories`, together with a
string-to-string dict whose keys are distinct and whose entries stand in
insertion order; on some inputs a collector raises instead of
returning (see the counterexample). -/
theorem collectors_return_shape (env : PyEnv) (i : Nat) (h : i < SECTIONS.length)
    (r : Collected) (hok : (SECTIONS.get ⟨i, h⟩).2 env = Except.ok r) :
    (∃ hn : i < SECTION_NAMES.length,
      r.1 = (SECTION_NAMES.get ⟨i, hn⟩).1 ∧ r.2.1 = (SECTION_NAMES.get ⟨i, hn⟩).2) ∧
    (r.2.2.entries.map Prod.fst).Nodup := by
  refine ⟨?_, r.2.2.nodup⟩
  have h14 : i < 14 := by simpa [SECTIONS] using h
  refine ⟨by simpa [SECTION_NAMES] using h14, ?_⟩
  interval_cases i
  · exact map_ok_shape "Summary" "computer-symbolic" (collect_summary_info env) r hok
  · exact map_ok_shape "Processor" "processor-symbolic" (collect_cpu_info env) r hok
  · exact map_ok_shape "Memory" "memory-symbolic" (collect_memory_info env) r hok
  · exact ok_shape "Storage" "drive-harddisk-symbolic" (collect_storage_info env) r hok
  · exact map_ok_shape "Graphics" "video-display-symbolic" (collect_gpu_info env) r hok
  · exact ok_shape "Display" "video-display-symbolic" (collect_display_info env) r hok
  · exact map_ok_shape "Network" "network-wired-symbolic" (collect_network_info env) r hok
  · exact ok_shape "Sensors" "sensors-temperature-symbolic" (collect_sensors_info env) r hok
  · exact map_ok_shape "Battery" "battery-symbolic" (collect_battery_info env) r hok
  · exact ok_shape "PCI Devices" "expansion-card-symbolic" (collect_pci_info env) r hok
  · exact ok_shape "USB Devices" "drive-removable-media-symbolic" (collect_usb_info env) r hok
  · exact ok_shape "Filesystems" "drive-multidisk-symbolic" (collect_filesystems_info env) r hok
  · exact ok_shape "Kernel Modules" "application-x-firmware-symbolic"
      (collect_kernel_modules_info env) r hok
  · exact ok_shape "Environment" "preferences-other-symbolic" (collect_environment_info env) r hok

/-- C3 counterexample: `collect_network` — the `SECTIONS` entry at index 6
— raises `IndexError` instead of returning a triple when
`/etc/resolv.conf` holds a bare `nameserver` line and every command is
unavailable. -/
theorem collectors_return_shape_cex :
    (SECTIONS.get ⟨6, by decide⟩).2 = collect_network ∧
    collect_network env1 = Except.error "list index out of range" :=
  ⟨rfl, rfl⟩

/-- Witness for C3: `collect_summary` on the all-failing environment
returns the Summary triple with distinct keys. -/
theorem collectors_return_shape_witness :
    (SECTIONS.get ⟨0, by decide⟩).2 env0 = Except.ok c3ok ∧
    c3ok.1 = "Summary" ∧ c3ok.2.1 = "computer-symbolic" ∧
    (c3ok.2.2.entries.map Prod.fst).Nodup := by
  have hok : (SECTIONS.get ⟨0, by decide⟩).2 env0 = Except.ok c3ok := rfl
  obtain ⟨⟨hn, h1, h2⟩, h3⟩ := collectors_return_shape env0 0 (by decide) c3ok hok
  exact ⟨hok, h1, h2, h3⟩

/-- C6: `_load_all` keeps one entry per collector (the lengths agree), a
raising collector contributes a single-Error-entry dict holding the
exception message under its `str(collector)` title, and a returning
collector contributes its own triple. -/
theorem load_all_error_contained (env : PyEnv) (i : Nat) (h : i < SECTIONS.length) :
    (loadAll env).length = SECTIONS.length ∧
    (∀ e, (SECTIONS.get ⟨i, h⟩).2 env = Except.error e →
      (loadAll env).get? i =
        some ((SECTIONS.get ⟨i, h⟩).1, "", ODict.empty.insert "Error" e)) ∧
    (∀ d, (SECTIONS.get ⟨i, h⟩).2 env = Except.ok d →
      (loadAll env).get? i = some d) := by
  have hget : (loadAll env).get? i = some (match (SECTIONS.get ⟨i, h⟩).2 env with
      | Except.ok d => d
      | Except.error e => ((SECTIONS.get ⟨i, h⟩).1, "", ODict.empty.insert "Error" e)) := by
    rw [loadAll, List.get?_map, List.get?_eq_get h]
    rfl
  refine ⟨by simp [loadAll], ?_, ?_⟩
  · intro e he
    rw [hget, he]
  · intro d hd
    rw [hget, hd]

/-- Witness for C6: on the bad-resolv.conf environment, the network
collector raises and `_load_all` records the Error entry at its index. -/
theorem load_all_error_contained_witness :
    (SECTIONS.get ⟨6, by decide⟩).2 env1 = Except.error "list index out of range" ∧
    (loadAll env1).get? 6 =
      some ("<function collect_network>", "",
        ODict.empty.insert "Error" "list index out of range") := by
  refine ⟨rfl, ?_⟩
  exact (load_all_error_contained env1 6 (by decide)).2.1 "list index out of range" rfl

/-- C9 counterexample: two runs whose wrapped utilities, pseudo-files and
environment variables yield identical text, but whose uname hostname
differs, give different Summary results — the hostname comes from
`platform.node()`, none of the three claimed input channels. -/
theorem collectors_two_run_cex :
    envB.cmdOut = envA.cmdOut ∧ envB.fileContent = envA.fileContent ∧
    envB.pathExists = envA.pathExists ∧ envB.isDir = envA.isDir ∧
    envB.listDir = envA.listDir ∧ envB.globMatches = envA.globMatches ∧
    envB.envVars = envA.envVars ∧
    collect_summary envA ≠ collect_summary envB := by
  refine ⟨rfl, rfl, rfl, rfl, rfl, rfl, rfl, ?_⟩
  intro hc
  have h1 : okGet (collect_summary envA) "Hostname" = some "hostA" := rfl
  rw [hc] at h1
  have h2 : okGet (collect_summary envB) "Hostname" = some "hostB" := rfl
  rw [h2] at h1
  exact absurd h1 (by decide)

/-- C9 (amended): every collector is a deterministic pure function of the
observed system: two runs agreeing on the wrapped utilities,
pseudo-files, filesystem tests, directory listings, glob matches,
environment variables, the runtime's set-iteration order, and the
platform/uname values give identical results for every collector in
`SECTIONS`. -/
theorem collectors_two_run_deterministic (e1 e2 : PyEnv)
    (h1 : e1.cmdOut = e2.cmdOut) (h2 : e1.fileContent = e2.fileContent)
    (h3 : e1.pathExists = e2.pathExists) (h4 : e1.isDir = e2.isDir)
    (h5 : e1.listDir = e2.listDir) (h6 : e1.globMatches = e2.globMatches)
    (h7 : e1.envVars = e2.envVars) (h8 : e1.setOrder = e2.setOrder)
    (h9 : e1.node = e2.node) (h10 : e1.release = e2.release)
    (h11 : e1.machine = e2.machine) (h12 : e1.processor = e2.processor)
    (h13 : e1.platformDesc = e2.platformDesc) :
    ∀ i, ∀ hi : i < SECTIONS.length,
      (SECTIONS.get ⟨i, hi⟩).2 e1 = (SECTIONS.get ⟨i, hi⟩).2 e2 := by
  have he : e1 = e2 := PyEnv.ext h1 h2 h3 h4 h5 h6 h7 h8 h9 h10 h11 h12 h13
  rw [he]
  intro i hi
  rfl

/-- Witness for C9: the all-failing environment and its literal copy give
the same Processor result. -/
theorem collectors_two_run_deterministic_witness :
    (SECTIONS.get ⟨1, by decide⟩).2 env0 = (SECTIONS.get ⟨1, by decide⟩).2 envC :=
  collectors_two_run_deterministic env0 envC rfl rfl rfl rfl rfl rfl rfl rfl rfl rfl rfl
    rfl rfl 1 (by decide)

/-- With fuel at least the guess, the fuel-driven Newton iteration equals
the `Nat.sqrt` iteration. -/
theorem isqrtIter_eq (n : Nat) : ∀ fuel g, g ≤ fuel → isqrtIter n g fuel = Nat.sqrt.iter n g := by
  intro fuel
  induction fuel with
  | zero =>
    intro g hg
    interval_cases g
    unfold Nat.sqrt.iter
    simp [isqrtIter]
  | succ f ih =>
    intro g hg
    unfold Nat.sqrt.iter
    simp only [isqrtIter]
    split
    · next h => rw [ih _ (by omega)]
    · next h => rfl

/-- The model of `int(math.sqrt n)` is the integer square root. -/
theorem pyISqrt_eq (n : Nat) : pyISqrt n = Nat.sqrt n := by
  unfold pyISqrt Nat.sqrt
  split
  · rfl
  · exact isqrtIter_eq n (n/2) (n/2) (Nat.le_refl _)

/-- The inner trial-division loop succeeds iff no divisor in its range
divides `n`. -/
theorem trialInner_spec (n : Nat) :
    ∀ fuel i, trialInner n i fuel = true ↔ ∀ j, i ≤ j → j < i + fuel → n % j ≠ 0 := by
  intro fuel
  induction fuel with
  | zero => intro i; simp [trialInner]; omega
  | succ f ih =>
    intro i
    simp only [trialInner]
    cases hni : n % i == 0 with
    | true =>
      simp only [if_true]
      simp only [beq_iff_eq] at hni
      constructor
      · intro hc; exact absurd hc (by simp)
      · intro hall; exact absurd (hall i (Nat.le_refl i) (by omega)) (by simp [hni])
    | false =>
      simp only [Bool.false_eq_true, if_false]
      rw [ih (i+1)]
      simp only [beq_eq_false_iff_ne, ne_eq] at hni
      constructor
      · intro hall j hij hjf
        rcases Nat.eq_or_lt_of_le hij with rfl | hlt
        · exact hni
        · exact hall j hlt (by omega)
      · intro hall j hij hjf
        exact hall j (by omega) (by omega)

/-- The `i*i ≤ n`-bounded loop tests exactly the divisors up to the square
root, provided the fuel covers the range. -/
theorem fastInner_spec (n : Nat) :
    ∀ fuel i, 0 < i → n < i + fuel →
      (fastInner n i fuel = true ↔ ∀ j, i ≤ j → j * j ≤ n → n % j ≠ 0) := by
  intro fuel
  induction fuel with
  | zero =>
    intro i hi h2
    simp only [fastInner, true_iff]
    intro j hij hjn
    have hjj : j ≤ j * j := Nat.le_mul_of_pos_left j (by omega)
    omega
  | succ f ih =>
    intro i hi h2
    simp only [fastInner]
    cases hble : Nat.ble (i*i) n with
    | true =>
      have hle : i * i ≤ n := Nat.ble_eq.mp hble
      simp only [cond_true]
      cases hni : n % i == 0 with
      | true =>
        simp only [cond_true]
        simp only [beq_iff_eq] at hni
        constructor
        · intro hc; exact absurd hc (by simp)
        · intro hall; exact absurd (hall i (Nat.le_refl i) hle) (by simp [hni])
      | false =>
        simp only [cond_false]
        rw [ih (i+1) (by omega) (by omega)]
        simp only [beq_eq_false_iff_ne, ne_eq] at hni
        constructor
        · intro hall j hij hjn
          rcases Nat.eq_or_lt_of_le hij with rfl | hlt
          · exact hni
          · exact hall j hlt hjn
        · intro hall j hij hjn
          exact hall j (by omega) hjn
    | false =>
      have hle : ¬ i * i ≤ n := by
        intro hc
        rw [Nat.ble_eq.mpr hc] at hble
        exact Bool.noConfusion hble
      simp only [cond_false, true_iff]
      intro j hij hjn
      have : i * i ≤ j * j := Nat.mul_le_mul hij hij
      omega

/-- The two trial divisions agree on every `n ≥ 2`. -/
theorem trial_eq_fast (n : Nat) (h2 : 2 ≤ n) : trialIsPrime n = fastIsPrime n := by
  have hs : pyISqrt n = Nat.sqrt n := pyISqrt_eq n
  have hsq1 : 1 ≤ Nat.sqrt n := Nat.le_sqrt.mpr (by omega)
  rw [Bool.eq_iff_iff]
  unfold trialIsPrime fastIsPrime
  rw [trialInner_spec n (pyISqrt n + 1 - 2) 2,
      fastInner_spec n n 2 (by omega) (by omega)]
  rw [hs]
  constructor
  · intro hall j hj hjn
    have hjs : j ≤ Nat.sqrt n := Nat.le_sqrt.mpr hjn
    exact hall j hj (by omega)
  · intro hall j hj hjn
    have hjs : j ≤ Nat.sqrt n := by omega
    exact hall j hj (Nat.le_sqrt.mp hjs)

/-- The benchmark's per-number test decides primality (for `n ≥ 2`). -/
theorem trialIsPrime_iff (n : Nat) (h2 : 2 ≤ n) : trialIsPrime n = true ↔ Nat.Prime n := by
  have hsq1 : 1 ≤ Nat.sqrt n := Nat.le_sqrt.mpr (by omega)
  unfold trialIsPrime
  rw [trialInner_spec, pyISqrt_eq, Nat.prime_def_le_sqrt]
  constructor
  · intro hall
    refine ⟨h2, fun m hm hms hdvd => ?_⟩
    have hmod : n % m = 0 := (Nat.dvd_iff_mod_eq_zero).mp hdvd
    exact hall m hm (by omega) hmod
  · rintro ⟨_, hall⟩ j hj hjlt hmod
    exact hall j hj (by omega) ((Nat.dvd_iff_mod_eq_zero).mpr hmod)

/-- The benchmark's outer loop counts the numbers its trial division
accepts. -/
theorem primeCountLoop_spec : ∀ r n acc, primeCountLoop n acc r =
    acc + ((List.range' n r).filter (fun m => trialIsPrime m)).length := by
  intro r
  induction r with
  | zero => intro n acc; simp [primeCountLoop]
  | succ r ih =>
    intro n acc
    rw [List.range'_succ]
    simp only [primeCountLoop, List.filter_cons]
    by_cases h : trialIsPrime n
    · simp only [h, if_true, List.length_cons, ih]
      omega
    · simp only [h, Bool.false_eq_true, if_false, ih]

/-- The counter `evalLinear` counts the numbers `evalIsPrime` accepts. -/
theorem evalLinear_spec : ∀ len n, evalLinear n len =
    ((List.range' n len).filter (fun m => evalIsPrime m)).length := by
  intro len
  induction len with
  | zero => intro n; simp [evalLinear]
  | succ len ih =>
    intro n
    rw [List.range'_succ]
    simp only [evalLinear, List.filter_cons]
    cases h : evalIsPrime n
    · simp only [Bool.false_eq_true, if_false, cond_false, ih]
      omega
    · simp only [if_true, cond_true, List.length_cons, ih]
      omega

/-- The counter `evalSplit` counts the numbers `evalIsPrime` accepts. -/
theorem evalSplit_spec : ∀ f a len, evalSplit f a len =
    ((List.range' a len).filter (fun m => evalIsPrime m)).length := by
  intro f
  induction f with
  | zero => intro a len; exact evalLinear_spec len a
  | succ f ih =>
    intro a len
    simp only [evalSplit]
    cases hble : Nat.ble len 512 with
    | true => simp only [cond_true]; exact evalLinear_spec len a
    | false =>
      simp only [cond_false]
      rw [ih, ih]
      rw [← List.length_append, ← List.filter_append]
      have hr : List.range' a (len/2) ++ List.range' (a + len/2) (len - len/2) =
          List.range' a len := by
        have := List.range'_append a (len/2) (len - len/2) 1
        simp only [Nat.one_mul] at this
        rw [this]
        congr 1
        omega
      rw [hr]

/-- The primorial literal is the product of the primes the benchmark's own
trial division finds below 317. -/
theorem prim_eq_prod : PRIM = primesList.prod := by decide

/-- Membership in the small-primes list. -/
theorem mem_primesList_iff (q : Nat) : q ∈ primesList ↔ 2 ≤ q ∧ q < 317 ∧ Nat.Prime q := by
  unfold primesList
  rw [List.mem_filter, List.mem_range'_1]
  constructor
  · rintro ⟨⟨h2, hlt⟩, htr⟩
    exact ⟨h2, by omega, (trialIsPrime_iff q h2).mp htr⟩
  · rintro ⟨h2, hlt, hp⟩
    exact ⟨⟨h2, by omega⟩, (trialIsPrime_iff q h2).mpr hp⟩

/-- Every prime up to 316 divides the primorial. -/
theorem prime_dvd_prim {q : Nat} (hq : Nat.Prime q) (hle : q ≤ 316) : q ∣ PRIM := by
  rw [prim_eq_prod]
  exact List.dvd_prod ((mem_primesList_iff q).mpr ⟨hq.two_le, by omega, hq⟩)

/-- A prime dividing a product of naturals divides one of the factors. -/
theorem prime_dvd_listprod {q : Nat} (hq : Nat.Prime q) :
    ∀ l : List Nat, q ∣ l.prod → ∃ a ∈ l, q ∣ a := by
  intro l
  induction l with
  | nil =>
    intro h
    rw [List.prod_nil] at h
    exact absurd (Nat.dvd_one.mp h) (Nat.Prime.ne_one hq)
  | cons a l ih =>
    intro h
    rw [List.prod_cons] at h
    rcases (Nat.Prime.dvd_mul hq).mp h with h | h
    · exact ⟨a, List.mem_cons_self a l, h⟩
    · obtain ⟨b, hb, hqb⟩ := ih h
      exact ⟨b, List.mem_cons_of_mem a hb, hqb⟩

/-- Every prime dividing the primorial is at most 316. -/
theorem prime_dvd_prim_le {q : Nat} (hq : Nat.Prime q) (hdvd : q ∣ PRIM) : q ≤ 316 := by
  rw [prim_eq_prod] at hdvd
  obtain ⟨a, ha, hqa⟩ := prime_dvd_listprod hq primesList hdvd
  obtain ⟨h2a, hlta, hpa⟩ := (mem_primesList_iff a).mp ha
  have hqe : q = a := (Nat.prime_dvd_prime_iff_eq hq hpa).mp hqa
  omega

/-- For `317 ≤ n < 100000`: `n` is prime iff it is coprime to the
316-primorial (a composite such `n` has a prime factor at most
`sqrt n ≤ 316`; a prime such `n` shares no factor with the primorial). -/
theorem gcd_prim_iff (n : Nat) (h317 : 317 ≤ n) (hlt : n < 100000) :
    Nat.gcd n PRIM = 1 ↔ Nat.Prime n := by
  constructor
  · intro hg
    by_contra hnp
    have hminp : Nat.Prime n.minFac := Nat.minFac_prime (by omega)
    have hsq : n.minFac ^ 2 ≤ n := Nat.minFac_sq_le_self (by omega) hnp
    have hsq2 : n.minFac * n.minFac ≤ n := by
      rw [pow_two] at hsq
      exact hsq
    have hle : n.minFac ≤ 316 := by
      by_contra hgt
      have h317m : 317 ≤ n.minFac := by omega
      have : 317 * 317 ≤ n.minFac * n.minFac := Nat.mul_le_mul h317m h317m
      omega
    have hdvd : n.minFac ∣ Nat.gcd n PRIM :=
      Nat.dvd_gcd (Nat.minFac_dvd n) (prime_dvd_prim hminp hle)
    rw [hg] at hdvd
    exact absurd (Nat.dvd_one.mp hdvd) (Nat.Prime.ne_one hminp)
  · intro hp
    have hdg : Nat.gcd n PRIM ∣ n := Nat.gcd_dvd_left n PRIM
    rcases Nat.Prime.eq_one_or_self_of_dvd hp _ hdg with h | h
    · exact h
    · exfalso
      have hdvdP : n ∣ PRIM := h ▸ Nat.gcd_dvd_right n PRIM
      have := prime_dvd_prim_le hp hdvdP
      omega

/-- On the benchmark range the fast evaluator agrees with the benchmark's
own trial division. -/
theorem evalIsPrime_eq_trial (n : Nat) (h2 : 2 ≤ n) (hlt : n < 100000) :
    evalIsPrime n = trialIsPrime n := by
  unfold evalIsPrime
  cases hble : Nat.ble n 316 with
  | true =>
    rw [cond_true]
    exact (trial_eq_fast n h2).symm
  | false =>
    rw [cond_false]
    have h317 : 317 ≤ n := by
      by_contra hc
      rw [Nat.ble_eq.mpr (by omega)] at hble
      exact Bool.noConfusion hble
    rw [Bool.eq_iff_iff, beq_iff_eq, trialIsPrime_iff n h2]
    exact gcd_prim_iff n h317 hlt

/-- The benchmark count equals the fast evaluator's count. -/
theorem benchCount_eq_eval : benchPrimeCount = evalSplit 32 2 99998 := by
  rw [evalSplit_spec]
  unfold benchPrimeCount
  rw [primeCountLoop_spec]
  rw [Nat.zero_add]
  refine congrArg List.length (List.filter_congr ?_)
  intro m hm
  rw [List.mem_range'_1] at hm
  exact (evalIsPrime_eq_trial m (by omega) (by omega)).symm

/-- The benchmark's loop counts exactly the primes in its range. -/
theorem benchCount_primes : benchPrimeCount =
    ((List.range' 2 99998).filter (fun m => decide (Nat.Prime m))).length := by
  unfold benchPrimeCount
  rw [primeCountLoop_spec]
  rw [Nat.zero_add]
  refine congrArg List.length (List.filter_congr ?_)
  intro m hm
  rw [List.mem_range'_1] at hm
  rw [Bool.eq_iff_iff, decide_eq_true_eq]
  exact trialIsPrime_iff m (by omega)

set_option maxRecDepth 8000 in
set_option maxHeartbeats 400000000 in
/-- The fast evaluator's value, by kernel computation. -/
theorem evalSplit_value : evalSplit 32 2 99998 = 9592 := by decide

/-- C5: the benchmark's trial-division loop counts exactly the primes `n`
with `2 ≤ n < 100000`, that count is 9592, and for every non-zero
elapsed time the reported `Primes found` entry is the string `9592` —
independent of timing. -/
theorem bench_primes_9592 :
    benchPrimeCount = ((List.range' 2 99998).filter (fun m => decide (Nat.Prime m))).length ∧
    benchPrimeCount = 9592 ∧
    ∀ elapsed : Rat, elapsed ≠ 0 → ∃ od, run_benchmark_cpu elapsed = Except.ok od ∧
      odGet od "Primes found" = some "9592" := by
  have hv : benchPrimeCount = 9592 := benchCount_eq_eval.trans evalSplit_value
  refine ⟨benchCount_primes, hv, ?_⟩
  intro elapsed hne
  unfold run_benchmark_cpu
  rw [if_neg hne]
  refine ⟨_, rfl, ?_⟩
  rw [odGet_insert, if_neg (by decide), odGet_insert, if_neg (by decide),
    odGet_insert, if_pos rfl, hv]
  rfl

/-- Witness for C5 at elapsed time 1. -/
theorem bench_primes_9592_witness :
    (1 : Rat) ≠ 0 ∧ ∃ od, run_benchmark_cpu 1 = Except.ok od ∧
      odGet od "Primes found" = some "9592" :=
  ⟨one_ne_zero, bench_primes_9592.2.2 1 one_ne_zero⟩
